import Mathlib

/-!
# Apex-DT: verification of the Logbook Scanner and the Eligibility Engine

Shallow embedding of the two computational cores of the Apex-DT repository:

* `LogbookScanner` (`src/unnamed/part_001`): free-text date/time/duration
  parsing, per-row validation, page-level aggregation
  (`validateEntries`) and cross-page aggregation
  (`calculateCumulativeHours`).
* `calculate_eligibility` (`src/supabase-schema.sql`): the trigger that
  recomputes a student's pathway, thresholds, credited hours and
  eligibility status.

Modelling conventions:
* JavaScript numbers and SQL `DECIMAL` values are modelled as exact
  rationals (`ℚ`); minute counts, which are integer valued in the code,
  as `Int`.  Floating-point rounding of JS arithmetic is not modelled.
* JS `Date` values and SQL `DATE` values are modelled as civil dates
  (year/month/day triples); comparisons go through the day number.
  The code compares a parsed local-midnight date against "today at
  23:59:59.999", which coincides with comparing civil day numbers.
* Nullable values are `Option`; the JS falsiness of `null`, `""` and `0`
  is modelled explicitly at each use site.
* Error/warning objects carry a `field` tag; their human-readable
  message texts are display-only and never influence control flow, so
  they are elided from the embedding.
-/

namespace ApexDT

/-! ## Civil-date arithmetic

`daysFromCivil`/`civilFromDays` convert between a Gregorian
year/month/day triple and a serial day number (days since 1970-01-01),
following the standard era-based algorithm.  This models both the
ECMAScript `MakeDay` normalisation used by `new Date(y, m, d)` and
Postgres `DATE` ordering. -/

structure CivilDate where
  year : Int
  month : Int
  day : Int
deriving DecidableEq, Repr

/-- Serial day number of a (valid) Gregorian date, days since 1970-01-01. -/
def daysFromCivil (y m d : Int) : Int :=
  let y1 := if m ≤ 2 then y - 1 else y
  let era := Int.fdiv y1 400
  let yoe := y1 - era * 400
  let doy := Int.fdiv (153 * (if 2 < m then m - 3 else m + 9) + 2) 5 + d - 1
  let doe := yoe * 365 + Int.fdiv yoe 4 - Int.fdiv yoe 100 + doy
  era * 146097 + doe - 719468

/-- Inverse of `daysFromCivil`: the canonical Gregorian date of a serial
day number. -/
def civilFromDays (z0 : Int) : CivilDate :=
  let z := z0 + 719468
  let era := Int.fdiv z 146097
  let doe := z - era * 146097
  let yoe := Int.fdiv (doe - Int.fdiv doe 1460 + Int.fdiv doe 36524 - Int.fdiv doe 146096) 365
  let y := yoe + era * 400
  let doy := doe - (365 * yoe + Int.fdiv yoe 4 - Int.fdiv yoe 100)
  let mp := Int.fdiv (5 * doy + 2) 153
  let d := doy - Int.fdiv (153 * mp + 2) 5 + 1
  let m := if mp < 10 then mp + 3 else mp - 9
  ⟨if m ≤ 2 then y + 1 else y, m, d⟩

def CivilDate.dayNumber (d : CivilDate) : Int :=
  daysFromCivil d.year d.month d.day

def isLeapYear (y : Int) : Bool :=
  (y % 4 == 0 && y % 100 != 0) || y % 400 == 0

def daysInMonth (y m : Int) : Int :=
  if m = 2 then (if isLeapYear y then 29 else 28)
  else if m = 4 ∨ m = 6 ∨ m = 9 ∨ m = 11 then 30
  else 31

/-- Postgres `date - INTERVAL 'n years'`: decrement the year, clamping the
day to the target month's length (only relevant for 29 February). -/
def subYears (d : CivilDate) (n : Int) : CivilDate :=
  let y := d.year - n
  ⟨y, d.month, min d.day (daysInMonth y d.month)⟩

/-- Postgres `date + INTERVAL 'n months'`: calendar-month addition with
day-of-month clamping. -/
def addMonths (d : CivilDate) (n : Int) : CivilDate :=
  let t := d.month - 1 + n
  let y := d.year + Int.fdiv t 12
  let m := Int.emod t 12 + 1
  ⟨y, m, min d.day (daysInMonth y m)⟩

/-- Postgres `EXTRACT(YEAR FROM AGE(later, earlier))`: the number of full
calendar years from `earlier` to `later`. -/
def extractYearAge (later earlier : CivilDate) : Int :=
  let base := later.year - earlier.year
  if later.month < earlier.month ∨
     (later.month = earlier.month ∧ later.day < earlier.day) then base - 1
  else base

/-! ## JavaScript-style primitive string parsing -/

def digitVal (c : Char) : Nat := c.toNat - 48

def digitsToNat (cs : List Char) : Nat :=
  cs.foldl (fun a c => a * 10 + digitVal c) 0

/-- `parseInt(s, 10)`: skip leading whitespace, optional sign, then the
longest digit prefix; `NaN` (here `none`) when no digit is found. -/
def parseIntChars : List Char → Option Int
  | cs =>
    let cs1 := cs.dropWhile (fun c => c.isWhitespace)
    let (sign, cs2) : Int × List Char :=
      match cs1 with
      | '-' :: rest => (-1, rest)
      | '+' :: rest => (1, rest)
      | rest => (1, rest)
    let ds := cs2.takeWhile (fun c => c.isDigit)
    if ds.isEmpty then none else some (sign * (digitsToNat ds : Int))

/-- The separators of the date regex character class `[\/\-\.]`. -/
def isDateSep (c : Char) : Bool := c = '/' || c = '-' || c = '.'

/-- `String.prototype.split` on a single-character class: fields between
separator occurrences, keeping empty fields. -/
def splitFields (p : Char → Bool) : List Char → List (List Char)
  | [] => [[]]
  | c :: cs =>
    let r := splitFields p cs
    if p c then [] :: r
    else
      match r with
      | f :: rest => (c :: f) :: rest
      | [] => [[c]]

/-- ECMAScript `MakeDay` normalisation as used by `new Date(y, m0, d)`
(`m0` is 0-based and both month and day roll over out-of-range values).
The astronomical ±100 000 000-day range limit of JS dates is not
modelled. -/
def jsMakeDate (y m0 d : Int) : CivilDate :=
  let ym := y + Int.fdiv m0 12
  let mn := Int.emod m0 12
  civilFromDays (daysFromCivil ym (mn + 1) 1 + (d - 1))

/-- `LogbookScanner.parseDate`: split on `/`, `-` or `.`; require exactly
three components; `parseInt` each; map two-digit years to 19xx when
greater than 50, else 20xx; build a JS `Date` (with rollover).  A `NaN`
component makes the JS `Date` invalid, hence `none`. -/
def parseDate (s : String) : Option CivilDate :=
  match splitFields isDateSep s.data with
  | [p1, p2, p3] =>
    match parseIntChars p1, parseIntChars p2, parseIntChars p3 with
    | some day, some month1, some year =>
      let fullYear := if year < 100 then (if year > 50 then 1900 + year else 2000 + year) else year
      some (jsMakeDate fullYear (month1 - 1) day)
    | _, _, _ => none
  | _ => none

/-- The separators of the time regexes' class `[:\.]`. -/
def isTimeSep (c : Char) : Bool := c = ':' || c = '.'

/-- One backtracking attempt of `/(\d{1,2})[:\.](\d{2})/` at the current
position: greedy two-digit hours first, then one-digit hours. -/
def timeMatchAt (l : List Char) : Option (List Char × List Char) :=
  match l with
  | a :: b :: s :: m1 :: m2 :: _ =>
    if a.isDigit && b.isDigit && isTimeSep s && m1.isDigit && m2.isDigit then
      some ([a, b], [m1, m2])
    else
      match l with
      | a :: s :: m1 :: m2 :: _ =>
        if a.isDigit && isTimeSep s && m1.isDigit && m2.isDigit then
          some ([a], [m1, m2])
        else none
      | _ => none
  | a :: s :: m1 :: m2 :: _ =>
    if a.isDigit && isTimeSep s && m1.isDigit && m2.isDigit then
      some ([a], [m1, m2])
    else none
  | _ => none

/-- Leftmost match of `/(\d{1,2})[:\.](\d{2})/` over the whole string. -/
def timeScan : List Char → Option (List Char × List Char)
  | [] => none
  | c :: cs =>
    match timeMatchAt (c :: cs) with
    | some r => some r
    | none => timeScan cs

/-- `LogbookScanner.parseTime`: falsy input returns `null`; otherwise the
first `/(\d{1,2})[:\.](\d{2})/` match anywhere in the string, with a
range check on hours `[0,23]` and minutes `[0,59]`, gives the minutes
since midnight. -/
def parseTime (s? : Option String) : Option Int :=
  match s? with
  | none => none
  | some s =>
    if s = "" then none
    else
      match timeScan s.data with
      | none => none
      | some (hcs, mcs) =>
        let h : Nat := digitsToNat hcs
        let m : Nat := digitsToNat mcs
        if h ≤ 23 ∧ m ≤ 59 then some ((h : Int) * 60 + (m : Int)) else none

/-- Maximal digit run at the head of the list, with the remainder. -/
def digitRun : List Char → List Char × List Char
  | [] => ([], [])
  | c :: cs =>
    if c.isDigit then
      let r := digitRun cs
      (c :: r.1, r.2)
    else ([], c :: cs)

/-- Leftmost match of `/(\d+)[:\.](\d{2})/`: a digit run directly followed
by a separator and (at least) two digits. -/
def colonScan : List Char → Option (List Char × List Char)
  | [] => none
  | c :: cs =>
    (if c.isDigit then
      let r := digitRun (c :: cs)
      match r.2 with
      | s :: m1 :: m2 :: _ =>
        if isTimeSep s && m1.isDigit && m2.isDigit then some (r.1, [m1, m2]) else none
      | _ => none
    else none).orElse (fun _ => colonScan cs)

/-- Leftmost match of `/(\d+\.?\d*)/`: a digit run, optionally followed by
a dot and further digits. -/
def decimalScan : List Char → Option (List Char × List Char)
  | [] => none
  | c :: cs =>
    if c.isDigit then
      let r := digitRun (c :: cs)
      match r.2 with
      | '.' :: rest => some (r.1, (digitRun rest).1)
      | _ => some (r.1, [])
    else decimalScan cs

/-- `Math.round`: round half away from zero towards +∞ (all inputs here
are non-negative). -/
def jsRound (q : ℚ) : Int := ⌊q + 1 / 2⌋

/-- `LogbookScanner.parseDuration`: falsy input is `null`; an `H:MM`-style
match wins; otherwise a decimal-hours match, times 60, rounded. -/
def parseDuration (s? : Option String) : Option Int :=
  match s? with
  | none => none
  | some s =>
    if s = "" then none
    else
      match colonScan s.data with
      | some (hcs, mcs) => some ((digitsToNat hcs : Int) * 60 + (digitsToNat mcs : Int))
      | none =>
        match decimalScan s.data with
        | some (ics, fcs) =>
          let q : ℚ := (digitsToNat ics : ℚ) + (digitsToNat fcs : ℚ) / ((10 : ℚ) ^ fcs.length)
          some (jsRound (q * 60))
        | none => none

/-- Decimal digits of `n`, via a structural fuel argument so that the
kernel can evaluate it. -/
def natStrAux : Nat → Nat → List Char
  | 0, _ => []
  | fuel + 1, n =>
    if n < 10 then [Char.ofNat (48 + n)]
    else natStrAux fuel (n / 10) ++ [Char.ofNat (48 + n % 10)]

def natStr (n : Nat) : String := ⟨natStrAux (n + 1) n⟩

def intStr (i : Int) : String :=
  if i < 0 then "-" ++ natStr (-i).toNat else natStr i.toNat

/-- `LogbookScanner.formatDuration`: `null` formats as a placeholder;
otherwise `H:MM` with the minutes zero-padded to two digits. -/
def formatDuration (m? : Option Int) : String :=
  match m? with
  | none => "--:--"
  | some m =>
    let h := Int.fdiv m 60
    let r := Int.emod m 60
    intStr h ++ ":" ++ (if r < 10 then "0" else "") ++ intStr r

/-! ## Row validation (`LogbookScanner.validateEntries`, per-entry part)

The fields of an extracted logbook row that the validation logic reads.
Display-only fields (weather, supervisor name, licence number, notes)
are never inspected by the code and are elided. -/

structure LogbookEntry where
  rowNumber : Nat
  date : Option String
  startTime : Option String
  finishTime : Option String
  totalTime : Option String
  hasSignature : Bool
  odometerStart : Option ℚ
  odometerFinish : Option ℚ
  confidence : String
deriving DecidableEq, Repr

/-- A row-level error or warning; the message text is elided (display
only), keeping the `field` tag that identifies the emitting rule. -/
structure Issue where
  field : String
deriving DecidableEq, Repr

structure ValidatedEntry where
  entry : LogbookEntry
  parsedDate : Option CivilDate
  calculatedDuration : Option Int
  durationMinutes : Option Int
  errors : List Issue
  warnings : List Issue
  isValid : Bool
deriving DecidableEq, Repr

/-- JS truthiness of a nullable string: `null` and `""` are falsy. -/
def strTruthy : Option String → Bool
  | none => false
  | some s => s ≠ ""

/-- Step 2 of `validateEntries`: parse the date when it is truthy and not
the `"UNCLEAR"` sentinel; unparseable → error, strictly-future → error,
before 2020-01-01 → warning.  Returns (parsed date, errors, warnings). -/
def dateCheck (today : CivilDate) (d : Option String) :
    Option CivilDate × List Issue × List Issue :=
  match d with
  | some s =>
    if s ≠ "" ∧ s ≠ "UNCLEAR" then
      match parseDate s with
      | none => (none, [⟨"date"⟩], [])
      | some pd =>
        if today.dayNumber < pd.dayNumber then (some pd, [⟨"date"⟩], [])
        else if pd.dayNumber < (CivilDate.mk 2020 1 1).dayNumber then (some pd, [], [⟨"date"⟩])
        else (some pd, [], [])
    else (none, [], [])
  | none => (none, [], [])

/-- Step 3 of `validateEntries` for one time endpoint: parse when truthy
and not `"UNCLEAR"`; a failed parse yields an error on the given field. -/
def timeCheck (fieldName : String) (t : Option String) : Option Int × List Issue :=
  match t with
  | some s =>
    if s ≠ "" ∧ s ≠ "UNCLEAR" then
      match parseTime (some s) with
      | none => (none, [⟨fieldName⟩])
      | some m => (some m, [])
    else (none, [])
  | none => (none, [])

/-- Step 4 of `validateEntries`: when both endpoints parsed, adjust a
finish earlier than the start by 24 h (overnight session), difference the
two, flag too-short sessions (error) and over-2-hour sessions (warning),
and compare against a parseable recorded total (error above 5 minutes of
discrepancy).  Returns (computed duration, errors, warnings). -/
def durationCheck (totalTime : Option String) (st fi : Option Int) :
    Option Int × List Issue × List Issue :=
  match st, fi with
  | some s, some f0 =>
    let f := if f0 < s then f0 + 24 * 60 else f0
    let cd := f - s
    let shortErrs := if cd < 5 then [Issue.mk "duration"] else []
    let longWarns := if 2 * 60 < cd then [Issue.mk "duration"] else []
    let mismatchErrs :=
      match totalTime with
      | some ts =>
        if ts ≠ "" ∧ ts ≠ "UNCLEAR" then
          match parseDuration (some ts) with
          | some recorded => if 5 < |cd - recorded| then [Issue.mk "totalTime"] else []
          | none => []
        else []
      | none => []
    (some cd, shortErrs ++ mismatchErrs, longWarns)
  | _, _ => (none, [], [])

/-- Step 6 of `validateEntries`: with both odometer readings truthy
(non-null and non-zero), a negative distance is an error; a distance over
200 with a truthy computed duration and an implied average speed above
100 km/h is a warning.  Returns (errors, warnings). -/
def odoCheck (oS oF : Option ℚ) (cd : Option Int) : List Issue × List Issue :=
  match oS, oF with
  | some s, some f =>
    if s ≠ 0 ∧ f ≠ 0 then
      let dist := f - s
      if dist < 0 then ([⟨"odometer"⟩], [])
      else if 200 < dist then
        match cd with
        | some c =>
          if c ≠ 0 ∧ 100 < dist / ((c : ℚ) / 60) then ([], [⟨"odometer"⟩]) else ([], [])
        | none => ([], [])
      else ([], [])
    else ([], [])
  | _, _ => ([], [])

/-- The per-entry body of `validateEntries`, in source order: unclear
sentinels, date, times, duration reconciliation, signature, odometer,
confidence.  `durationMinutes` is the JS expression
`calculatedDuration || parseDuration(entry.totalTime)`, so a computed
duration of `0` (falsy) falls through to the recorded value; `isValid`
is `errors.length === 0`. -/
def validateEntry (today : CivilDate) (e : LogbookEntry) : ValidatedEntry :=
  let unclearErrs :=
    (if e.date = some "UNCLEAR" then [Issue.mk "date"] else []) ++
    (if e.startTime = some "UNCLEAR" ∨ e.finishTime = some "UNCLEAR" then [Issue.mk "time"] else [])
  let unclearWarns := if e.totalTime = some "UNCLEAR" then [Issue.mk "totalTime"] else []
  let dc := dateCheck today e.date
  let stc := timeCheck "startTime" e.startTime
  let fic := timeCheck "finishTime" e.finishTime
  let du := durationCheck e.totalTime stc.1 fic.1
  let sigWarns := if e.hasSignature = false then [Issue.mk "signature"] else []
  let odo := odoCheck e.odometerStart e.odometerFinish du.1
  let confWarns := if e.confidence = "low" then [Issue.mk "general"] else []
  let errs := unclearErrs ++ dc.2.1 ++ stc.2 ++ fic.2 ++ du.2.1 ++ odo.1
  let warns := unclearWarns ++ dc.2.2 ++ du.2.2 ++ sigWarns ++ odo.2 ++ confWarns
  { entry := e
    parsedDate := dc.1
    calculatedDuration := du.1
    durationMinutes :=
      match du.1 with
      | some c => if c = 0 then parseDuration e.totalTime else some c
      | none => parseDuration e.totalTime
    errors := errs
    warnings := warns
    isValid := errs.isEmpty }

/-! ## Page aggregation (`LogbookScanner.validateEntries`, page part) -/

/-- A page-level error/warning: the emitting row number (`none` for the
page-subtotal check) and the field tag. -/
structure PageIssue where
  row : Option Nat
  field : String
deriving DecidableEq, Repr

/-- The extraction payload handed to `validateEntries` (page notes are
display-only and elided). -/
structure ExtractionResult where
  pageType : String
  pageNumber : Option Int
  entries : List LogbookEntry
  subtotal : Option String
deriving DecidableEq, Repr

structure Totals where
  entries : Nat
  validEntries : Nat
  totalMinutes : Int
  totalHours : ℚ
  formattedTotal : String
deriving DecidableEq, Repr

/-- The page result (the constant `pageTypeInfo` config, `pageNotes` and
the `scannedAt` timestamp are display-only and elided). -/
structure ScanResult where
  pageType : String
  pageNumber : Option Int
  entries : List ValidatedEntry
  totals : Totals
  errors : List PageIssue
  warnings : List PageIssue
  hasErrors : Bool
  hasWarnings : Bool
deriving DecidableEq, Repr

structure PageAcc where
  entries : List ValidatedEntry
  totalMinutes : Int
  errors : List PageIssue
  warnings : List PageIssue

/-- The entry loop of `validateEntries`.  The JS loop adds
`calculatedDuration` to the running total exactly when both times
parsed, which is exactly when `calculatedDuration` is non-null, so the
accumulation is `calculatedDuration.getD 0`. -/
def processEntries (today : CivilDate) : List LogbookEntry → PageAcc
  | [] => ⟨[], 0, [], []⟩
  | e :: rest =>
    let v := validateEntry today e
    let acc := processEntries today rest
    ⟨v :: acc.entries,
     v.calculatedDuration.getD 0 + acc.totalMinutes,
     v.errors.map (fun i => ⟨some e.rowNumber, i.field⟩) ++ acc.errors,
     v.warnings.map (fun i => ⟨some e.rowNumber, i.field⟩) ++ acc.warnings⟩

/-- `LogbookScanner.validateEntries`: validate every row, total the
computed durations, compare a truthy, parseable declared subtotal
against the computed total (warning above 5 minutes difference). -/
def validateEntries (today : CivilDate) (x : ExtractionResult) : ScanResult :=
  let acc := processEntries today x.entries
  let totals : Totals :=
    ⟨acc.entries.length,
     (acc.entries.filter (fun v => v.isValid)).length,
     acc.totalMinutes,
     (acc.totalMinutes : ℚ) / 60,
     formatDuration (some acc.totalMinutes)⟩
  let subtotalWarns :=
    match x.subtotal with
    | some ss =>
      if ss ≠ "" then
        match parseDuration (some ss) with
        | some pm => if 5 < |acc.totalMinutes - pm| then [PageIssue.mk none "subtotal"] else []
        | none => []
      else []
    | none => []
  let errors := acc.errors
  let warnings := acc.warnings ++ subtotalWarns
  { pageType := x.pageType
    pageNumber := x.pageNumber
    entries := acc.entries
    totals := totals
    errors := errors
    warnings := warnings
    hasErrors := !errors.isEmpty
    hasWarnings := !warnings.isEmpty }

/-! ## Cross-page aggregation (`LogbookScanner.calculateCumulativeHours`) -/

structure CumAcc where
  blueDayMinutes : Int
  redNightMinutes : Int
  greenAdiMinutes : Int
  adiStampMinutes : Int
  allEntries : List ValidatedEntry
  errorCount : Nat
  warningCount : Nat

/-- `scan.entries.filter(e => e.isValid).reduce((sum, e) => sum +
(e.durationMinutes || 0), 0)` — `0` and `null` both contribute `0`. -/
def sumValidDurations (entries : List ValidatedEntry) : Int :=
  ((entries.filter (fun v => v.isValid)).map (fun v => v.durationMinutes.getD 0)).sum

/-- The scan loop of `calculateCumulativeHours`: bucket valid-row minutes
by page type (`GREEN_ADI` and `ADI_STAMP` share one bucket; other page
types contribute to no bucket), collect all entries, sum error/warning
counts.  `adiStampMinutes` is declared but never incremented, exactly as
in the source. -/
def cumFold : List ScanResult → CumAcc
  | [] => ⟨0, 0, 0, 0, [], 0, 0⟩
  | scan :: rest =>
    let acc := cumFold rest
    let add := sumValidDurations scan.entries
    { blueDayMinutes := (if scan.pageType = "BLUE_DAY" then add else 0) + acc.blueDayMinutes
      redNightMinutes := (if scan.pageType = "RED_NIGHT" then add else 0) + acc.redNightMinutes
      greenAdiMinutes :=
        (if scan.pageType = "GREEN_ADI" ∨ scan.pageType = "ADI_STAMP" then add else 0) +
          acc.greenAdiMinutes
      adiStampMinutes := acc.adiStampMinutes
      allEntries := scan.entries ++ acc.allEntries
      errorCount := scan.errors.length + acc.errorCount
      warningCount := scan.warnings.length + acc.warningCount }

/-- The professional-instructor actual minutes accumulated across scans. -/
def professionalActualMinutes (scans : List ScanResult) : Int :=
  (cumFold scans).greenAdiMinutes

structure SupervisedTotals where
  dayHours : ℚ
  nightHours : ℚ
  totalHours : ℚ
deriving DecidableEq, Repr

structure AdiTotals where
  actualHours : ℚ
  creditHours : ℚ
  first10Credit : ℚ
  extraCredit : ℚ
deriving DecidableEq, Repr

structure GrandTotals where
  actualHours : ℚ
  creditedHours : ℚ
deriving DecidableEq, Repr

structure ValidationSummary where
  totalEntries : Nat
  errorCount : Nat
  warningCount : Nat
deriving DecidableEq, Repr

structure CumulativeTotals where
  supervised : SupervisedTotals
  adi : AdiTotals
  grandTotal : GrandTotals
  validation : ValidationSummary
deriving DecidableEq, Repr

/-- `LogbookScanner.calculateCumulativeHours`: bucket the scans, then
apply the tiered professional (ADI) credit — first 10 actual hours at
3×, any excess at 1× — and assemble the grand totals. -/
def calculateCumulativeHours (scans : List ScanResult) : CumulativeTotals :=
  let t := cumFold scans
  let adiActualHours : ℚ := (t.greenAdiMinutes : ℚ) / 60
  let adiFirst10Credit : ℚ := min adiActualHours 10 * 3
  let adiExtraCredit : ℚ := max 0 (adiActualHours - 10)
  let adiTotalCredit : ℚ := adiFirst10Credit + adiExtraCredit
  { supervised :=
      ⟨(t.blueDayMinutes : ℚ) / 60, (t.redNightMinutes : ℚ) / 60,
       ((t.blueDayMinutes + t.redNightMinutes : Int) : ℚ) / 60⟩
    adi := ⟨adiActualHours, adiTotalCredit, adiFirst10Credit, adiExtraCredit⟩
    grandTotal :=
      ⟨((t.blueDayMinutes + t.redNightMinutes + t.greenAdiMinutes : Int) : ℚ) / 60,
       ((t.blueDayMinutes + t.redNightMinutes : Int) : ℚ) / 60 + adiTotalCredit⟩
    validation := ⟨t.allEntries.length, t.errorCount, t.warningCount⟩ }

/-! ## Eligibility engine (`calculate_eligibility` in `supabase-schema.sql`)

The trigger receives the `NEW` row and rewrites its derived fields.
SQL three-valued logic is modelled via `Option`: a comparison such as
`NEW.cbta_completed = TRUE` is `flag = some true` (NULL compares to
neither TRUE nor FALSE). -/

inductive Pathway
  | P1_RED
  | P2_GREEN
deriving DecidableEq, Repr

inductive EligStatus
  | ELIGIBLE
  | NOT_ELIGIBLE
  | PENDING_HOURS
  | PENDING_TENURE
  | PENDING_ASSESSMENTS
deriving DecidableEq, Repr

/-- The columns of `students` that `calculate_eligibility` reads or
writes. -/
structure Student where
  date_of_birth : Option CivilDate
  licence_expiry_date : Option CivilDate
  licence_issue_date : Option CivilDate
  age_at_issue : Option Int
  pathway : Option Pathway
  supervised_hours : Option ℚ
  professional_hours : Option ℚ
  night_hours : Option ℚ
  safer_driver_credit : Option Bool
  vru_credit : Option Bool
  first_aid_credit : Option Bool
  total_hours : Option ℚ
  hours_required : Option Int
  hours_remaining : Option ℚ
  cbta_completed : Option Bool
  assessment_1_22_completed : Option Bool
  tenure_start_date : Option CivilDate
  tenure_months_required : Option Int
  earliest_eligible_date : Option CivilDate
  eligibility_status : EligStatus
deriving DecidableEq, Repr

/-- The issue date the trigger works with: when an expiry date is
present, the issue date is recomputed as expiry minus 5 years (ACT
5-year licences) and overwritten; otherwise the stored value is kept. -/
def effIssueDate (r : Student) : Option CivilDate :=
  match r.licence_expiry_date with
  | some e => some (subYears e 5)
  | none => r.licence_issue_date

/-- `v_age_at_issue`: computed only when both the date of birth and the
(possibly recomputed) issue date are present. -/
def vAgeAtIssue (r : Student) : Option Int :=
  match r.date_of_birth, effIssueDate r with
  | some dob, some iss => some (extractYearAge iss dob)
  | _, _ => none

/-- `NEW.age_at_issue` after the trigger: recomputed when possible, else
the stored value is kept. -/
def newAgeAtIssue (r : Student) : Option Int :=
  match vAgeAtIssue r with
  | some a => some a
  | none => r.age_at_issue

def newPathway (r : Student) : Option Pathway :=
  match vAgeAtIssue r with
  | some a => some (if a < 25 then .P1_RED else .P2_GREEN)
  | none => r.pathway

def newHoursRequired (r : Student) : Option Int :=
  match vAgeAtIssue r with
  | some a => some (if a < 25 then 100 else 50)
  | none => r.hours_required

def newTenureMonthsRequired (r : Student) : Option Int :=
  match vAgeAtIssue r with
  | some a => some (if a < 25 then 12 else 6)
  | none => r.tenure_months_required

/-- `v_night_req`, after the `IF v_night_req IS NULL THEN 10` default. -/
def vNightReq (r : Student) : Int :=
  match vAgeAtIssue r with
  | some a => if a < 25 then 10 else 5
  | none => 10

/-- `v_total_hrs`: `LEAST(COALESCE(professional_hours, 0), 10) * 3 +
COALESCE(supervised_hours, 0)` plus the three flat course credits. -/
def vTotalHrs (r : Student) : ℚ :=
  min (r.professional_hours.getD 0) 10 * 3 +
    r.supervised_hours.getD 0 +
    (if r.safer_driver_credit = some true then 20 else 0) +
    (if r.vru_credit = some true then 10 else 0) +
    (if r.first_aid_credit = some true then 5 else 0)

/-- `NEW.earliest_eligible_date`: recomputed from the tenure start date
when present (calendar-month addition), else kept. -/
def newEarliestEligible (r : Student) : Option CivilDate :=
  match r.tenure_start_date with
  | some ts => some (addMonths ts ((newTenureMonthsRequired r).getD 12))
  | none => r.earliest_eligible_date

/-- `NEW.earliest_eligible_date IS NULL OR CURRENT_DATE >= it`. -/
def tenureOkB (today : CivilDate) (eed : Option CivilDate) : Bool :=
  match eed with
  | none => true
  | some d => d.dayNumber ≤ today.dayNumber

/-- `NEW.earliest_eligible_date IS NOT NULL AND CURRENT_DATE < it`. -/
def pendingTenureB (today : CivilDate) (eed : Option CivilDate) : Bool :=
  match eed with
  | none => false
  | some d => today.dayNumber < d.dayNumber

/-- The status ladder of the trigger, in source order: the full ELIGIBLE
conjunction first, then PENDING_HOURS, PENDING_TENURE,
PENDING_ASSESSMENTS, and the NOT_ELIGIBLE catch-all. -/
def newStatus (today : CivilDate) (r : Student) : EligStatus :=
  let tot := vTotalHrs r
  let req : Int := (newHoursRequired r).getD 100
  let eed := newEarliestEligible r
  if ((req : ℚ) ≤ tot ∧
      (vNightReq r : ℚ) ≤ r.night_hours.getD 0 ∧
      r.cbta_completed = some true ∧
      r.assessment_1_22_completed = some true ∧
      tenureOkB today eed = true ∧
      17 ≤ (newAgeAtIssue r).getD 0) then .ELIGIBLE
  else if tot < (req : ℚ) then .PENDING_HOURS
  else if pendingTenureB today eed = true then .PENDING_TENURE
  else if r.cbta_completed = some false ∨ r.assessment_1_22_completed = some false then
    .PENDING_ASSESSMENTS
  else .NOT_ELIGIBLE

/-- The `calculate_eligibility` trigger body: rewrite the derived fields
of the student row (the data-retention and `updated_at` bookkeeping
fields are outside the modelled column set). -/
def calculate_eligibility (today : CivilDate) (r : Student) : Student :=
  { r with
    licence_issue_date := effIssueDate r
    age_at_issue := newAgeAtIssue r
    pathway := newPathway r
    hours_required := newHoursRequired r
    tenure_months_required := newTenureMonthsRequired r
    total_hours := some (vTotalHrs r)
    hours_remaining := some (max (((newHoursRequired r).getD 100 : Int) - vTotalHrs r) 0)
    earliest_eligible_date := newEarliestEligible r
    eligibility_status := newStatus today r }

/-! ## Concrete fixtures -/

/-- The evaluation date used by the concrete fixtures. -/
def todayD : CivilDate := ⟨2025, 1, 1⟩

/-- A red-pathway student (born 2000, licence expiry 2028-05-01, hence
issue 2023-05-01 and age 23 at issue) with both assessments complete,
tenure started 2023-06-01, 30 supervised hours and 3 night hours. -/
def studentA : Student :=
  { date_of_birth := some ⟨2000, 1, 1⟩
    licence_expiry_date := some ⟨2028, 5, 1⟩
    licence_issue_date := none
    age_at_issue := none
    pathway := none
    supervised_hours := some 30
    professional_hours := some 0
    night_hours := some 3
    safer_driver_credit := some false
    vru_credit := some false
    first_aid_credit := some false
    total_hours := none
    hours_required := none
    hours_remaining := none
    cbta_completed := some true
    assessment_1_22_completed := some true
    tenure_start_date := some ⟨2023, 6, 1⟩
    tenure_months_required := none
    earliest_eligible_date := none
    eligibility_status := .NOT_ELIGIBLE }

/-- `studentA` with enough supervised hours to meet the 100-hour red
pathway requirement (but still only 3 night hours). -/
def studentB : Student := { studentA with supervised_hours := some 120 }

/-! ## Eligibility claims -/

/-- **C1.** For every student record and every current date, if the total
credited hours (`v_total_hrs`: min(professional, 10) × 3 + supervised +
course credit bonuses) are strictly below the required hours used by the
trigger, the computed eligibility status is `PENDING_HOURS`, regardless
of tenure, assessment flags, night hours or age at issue. -/
theorem c1_pending_hours_dominates (today : CivilDate) (r : Student)
    (h : vTotalHrs r < (((newHoursRequired r).getD 100 : Int) : ℚ)) :
    (calculate_eligibility today r).eligibility_status = .PENDING_HOURS := by
  show newStatus today r = .PENDING_HOURS
  unfold newStatus
  rw [if_neg (fun hc => absurd hc.1 (not_le.mpr h)), if_pos h]

/-- Witness for C1: `studentA` has 30 credited hours against a
100-hour requirement and is classified `PENDING_HOURS`. -/
theorem c1_pending_hours_dominates_witness :
    vTotalHrs studentA < (((newHoursRequired studentA).getD 100 : Int) : ℚ) ∧
      (calculate_eligibility todayD studentA).eligibility_status = .PENDING_HOURS := by
  have h : vTotalHrs studentA < (((newHoursRequired studentA).getD 100 : Int) : ℚ) := by
    have h1 : newHoursRequired studentA = some 100 := by decide
    rw [h1]
    norm_num [vTotalHrs, studentA, min_def]
  exact ⟨h, c1_pending_hours_dominates todayD studentA h⟩

/-- **C4.** For every student whose credited hours meet the requirement,
whose tenure is satisfied (no earliest-eligible date, or today is on or
after it), and whose two mandatory assessments are complete, but whose
night hours are below the night requirement, the status is
`NOT_ELIGIBLE` — no `PENDING_*` status exists for a night-hours
deficiency. -/
theorem c4_night_deficit_not_eligible (today : CivilDate) (r : Student)
    (hhrs : (((newHoursRequired r).getD 100 : Int) : ℚ) ≤ vTotalHrs r)
    (hten : tenureOkB today (newEarliestEligible r) = true)
    (hcbta : r.cbta_completed = some true)
    (ha122 : r.assessment_1_22_completed = some true)
    (hnight : r.night_hours.getD 0 < (vNightReq r : ℚ)) :
    (calculate_eligibility today r).eligibility_status = .NOT_ELIGIBLE := by
  show newStatus today r = .NOT_ELIGIBLE
  unfold newStatus
  have hpt : ¬ pendingTenureB today (newEarliestEligible r) = true := by
    cases heed : newEarliestEligible r with
    | none => simp [pendingTenureB]
    | some d =>
      rw [heed] at hten
      simp only [tenureOkB, decide_eq_true_eq] at hten
      simp [pendingTenureB, not_lt, hten]
  rw [if_neg (fun hc => absurd hc.2.1 (not_le.mpr hnight)),
    if_neg (not_lt.mpr hhrs), if_neg hpt,
    if_neg (by simp [hcbta, ha122])]

/-- Witness for C4: `studentB` (120 credited hours, tenure matured,
both assessments complete, 3 night hours against a requirement of 10)
is classified `NOT_ELIGIBLE`. -/
theorem c4_night_deficit_not_eligible_witness :
    ((((newHoursRequired studentB).getD 100 : Int) : ℚ) ≤ vTotalHrs studentB ∧
        tenureOkB todayD (newEarliestEligible studentB) = true ∧
        studentB.cbta_completed = some true ∧
        studentB.assessment_1_22_completed = some true ∧
        studentB.night_hours.getD 0 < (vNightReq studentB : ℚ)) ∧
      (calculate_eligibility todayD studentB).eligibility_status = .NOT_ELIGIBLE := by
  have hhrs : (((newHoursRequired studentB).getD 100 : Int) : ℚ) ≤ vTotalHrs studentB := by
    have h1 : newHoursRequired studentB = some 100 := by decide
    rw [h1]
    norm_num [vTotalHrs, studentB, studentA, min_def]
  have hnight : studentB.night_hours.getD 0 < (vNightReq studentB : ℚ) := by
    have h2 : vNightReq studentB = 10 := by decide
    rw [h2]
    norm_num [studentB, studentA]
  exact ⟨⟨hhrs, by decide, by decide, by decide, hnight⟩,
    c4_night_deficit_not_eligible todayD studentB hhrs (by decide) (by decide)
      (by decide) hnight⟩

/-- **C10.** When a licence expiry date is present, the trigger
overwrites the stored issue date with expiry minus 5 years before any
derived field is computed — so the entire output is independent of the
supplied issue date; when the expiry date is null, the stored issue date
is left unchanged. -/
theorem c10_issue_date_overwrite (today : CivilDate) (r : Student) (x : Option CivilDate) :
    ((calculate_eligibility today r).licence_issue_date =
      match r.licence_expiry_date with
      | some e => some (subYears e 5)
      | none => r.licence_issue_date) ∧
    (∀ e, r.licence_expiry_date = some e →
      calculate_eligibility today { r with licence_issue_date := x } =
        calculate_eligibility today r) := by
  constructor
  · rfl
  · intro e he
    rcases r with ⟨dob, exp, iss, age, pw, sup, prof, night, sdc, vru, fac, tot, hreq, hrem,
      cbta, a122, ts, tmr, eed, st⟩
    replace he : exp = some e := he
    subst he
    rfl

/-- Witness for C10: `studentA` carries an expiry date of 2028-05-01, so
its issue date is recomputed to 2023-05-01 and a bogus supplied issue
date of 1999-01-01 does not change the evaluation. -/
theorem c10_issue_date_overwrite_witness :
    ((calculate_eligibility todayD studentA).licence_issue_date =
      match studentA.licence_expiry_date with
      | some e => some (subYears e 5)
      | none => studentA.licence_issue_date) ∧
      calculate_eligibility todayD { studentA with licence_issue_date := some ⟨1999, 1, 1⟩ } =
        calculate_eligibility todayD studentA :=
  ⟨(c10_issue_date_overwrite todayD studentA (some ⟨1999, 1, 1⟩)).1,
    (c10_issue_date_overwrite todayD studentA (some ⟨1999, 1, 1⟩)).2 ⟨2028, 5, 1⟩ (by decide)⟩

/-! ## Scanner fixtures -/

/-- A row whose date carries the `"UNCLEAR"` sentinel but whose times
parse to a one-hour session. -/
def entryU : LogbookEntry :=
  { rowNumber := 1, date := some "UNCLEAR", startTime := some "10:00", finishTime := some "11:00",
    totalTime := some "1:00", hasSignature := true, odometerStart := none, odometerFinish := none,
    confidence := "high" }

/-- A row with equal start and finish times (computed duration 0) and a
recorded total of 30 minutes. -/
def entryZ : LogbookEntry :=
  { rowNumber := 1, date := some "1/5/2024", startTime := some "10:00", finishTime := some "10:00",
    totalTime := some "0:30", hasSignature := true, odometerStart := none, odometerFinish := none,
    confidence := "high" }

/-- A fully clean one-hour row except that the odometer finish reading is
`0`, which is strictly less than the start reading of `5`. -/
def entryOdo0 : LogbookEntry :=
  { rowNumber := 1, date := some "1/5/2024", startTime := some "10:00", finishTime := some "11:00",
    totalTime := some "1:00", hasSignature := true, odometerStart := some 5, odometerFinish := some 0,
    confidence := "high" }

/-- `entryOdo0` with odometer readings running backwards from 1000 to
400. -/
def entryOdoNeg : LogbookEntry :=
  { entryOdo0 with odometerStart := some 1000, odometerFinish := some 400 }

/-- A one-row page whose single row is invalid (unclear date) yet has a
computable one-hour duration. -/
def pageX : ExtractionResult :=
  { pageType := "BLUE_DAY", pageNumber := some 1, entries := [entryU], subtotal := none }

/-- A pre-validated entry worth 720 valid minutes. -/
def ventry720 : ValidatedEntry :=
  { entry :=
      { rowNumber := 1, date := none, startTime := none, finishTime := none, totalTime := none,
        hasSignature := true, odometerStart := none, odometerFinish := none, confidence := "high" }
    parsedDate := none, calculatedDuration := some 720, durationMinutes := some 720,
    errors := [], warnings := [], isValid := true }

/-- A professional-instructor page carrying 12 valid hours. -/
def scan12 : ScanResult :=
  { pageType := "GREEN_ADI", pageNumber := none, entries := [ventry720],
    totals := ⟨1, 1, 720, 12, "12:00"⟩, errors := [], warnings := [],
    hasErrors := false, hasWarnings := false }

/-! ## Scanner claims -/

theorem isEmpty_false_of_mem {α : Type} {l : List α} {a : α} (h : a ∈ l) :
    l.isEmpty = false := by
  cases l with
  | nil => cases h
  | cons _ _ => rfl

/-- **C6.** A row whose date or either time endpoint carries the
`"UNCLEAR"` sentinel is never classified valid, regardless of every
other field. -/
theorem c6_unclear_never_valid (today : CivilDate) (e : LogbookEntry)
    (h : e.date = some "UNCLEAR" ∨ e.startTime = some "UNCLEAR" ∨
      e.finishTime = some "UNCLEAR") :
    (validateEntry today e).isValid = false := by
  rcases h with h | h | h
  · exact isEmpty_false_of_mem (a := Issue.mk "date") (by simp [validateEntry, h])
  · exact isEmpty_false_of_mem (a := Issue.mk "time") (by simp [validateEntry, h])
  · exact isEmpty_false_of_mem (a := Issue.mk "time") (by simp [validateEntry, h])

/-- Witness for C6: `entryU` has an unclear date and is invalid. -/
theorem c6_unclear_never_valid_witness :
    entryU.date = some "UNCLEAR" ∧ (validateEntry todayD entryU).isValid = false :=
  ⟨rfl, c6_unclear_never_valid todayD entryU (Or.inl rfl)⟩

/-- **C3.** Evaluation of `parseDate` at the spec's own test inputs: the
out-of-range calendar date `"31/02/2024"` does **not** fail — the JS
`Date` constructor rolls it over to 2 March 2024, so the `isNaN` guard
never fires — while `"5/3/24"` parses to 5 March 2024 as the spec says. -/
theorem c3_parse_date_rollover :
    parseDate "31/02/2024" = some ⟨2024, 3, 2⟩ ∧
      parseDate "5/3/24" = some ⟨2024, 3, 5⟩ := by
  exact ⟨by decide, by decide⟩

/-- **C8 (counterexample).** `"7:300"` is not of the form `H:MM`/`H.MM`
(three-digit minutes), yet `parseTime` accepts it: the unanchored regex
matches the substring `7:30` and yields 450 minutes instead of the
failure the claim requires. -/
theorem c8_parse_time_counterexample : parseTime (some "7:300") = some 450 := by decide

/-- Canonical rendering of a clock time: one- or two-digit hours, a `:`
or `.` separator, two-digit minutes. -/
def renderClock (h m : Nat) (dot : Bool) : String :=
  ⟨(if h < 10 then [Char.ofNat (48 + h)]
    else [Char.ofNat (48 + h / 10), Char.ofNat (48 + h % 10)]) ++
   [if dot then '.' else ':'] ++
   [Char.ofNat (48 + m / 10), Char.ofNat (48 + m % 10)]⟩

/-- **C8 (amended).** `parseTime` returns hours × 60 + minutes for every
string of the form `H:MM` or `H.MM` (one- or two-digit hours, `:` or `.`
separator) with hours in [0,23] and minutes in [0,59]; but the pattern —
one or two digits, a separator, two digits — is matched anywhere in the
input rather than anchored, so some other strings parse too.  Every
input in which the pattern matches nowhere fails, every input whose
first match carries out-of-range hours or minutes fails, and null and
the empty string fail. -/
theorem c8_parse_time_amended :
    (∀ (h : Fin 24) (m : Fin 60) (dot : Bool),
        parseTime (some (renderClock h.val m.val dot)) =
          some ((h.val : Int) * 60 + (m.val : Int))) ∧
      (∀ s : String, timeScan s.data = none → parseTime (some s) = none) ∧
      (∀ (s : String) (hcs mcs : List Char), timeScan s.data = some (hcs, mcs) →
        ¬(digitsToNat hcs ≤ 23 ∧ digitsToNat mcs ≤ 59) → parseTime (some s) = none) ∧
      parseTime (some "") = none ∧ parseTime none = none := by
  refine ⟨by decide, ?_, ?_, by decide, rfl⟩
  · intro s hscan
    by_cases hs : s = "" <;> simp [parseTime, hs, hscan]
  · intro s hcs mcs hscan hrange
    by_cases hs : s = ""
    · simp [parseTime, hs]
    · simp [parseTime, hs, hscan, hrange]

/-- Witness for the amended C8: the pattern matches nowhere in `"abc"`,
and the first match in `"24:00"` has out-of-range hours; both fail. -/
theorem c8_parse_time_amended_witness :
    (timeScan "abc".data = none ∧ parseTime (some "abc") = none) ∧
      timeScan "24:00".data = some (['2', '4'], ['0', '0']) ∧
      ¬(digitsToNat ['2', '4'] ≤ 23 ∧ digitsToNat ['0', '0'] ≤ 59) ∧
      parseTime (some "24:00") = none :=
  ⟨⟨by decide, c8_parse_time_amended.2.1 "abc" (by decide)⟩,
    by decide, by decide,
    c8_parse_time_amended.2.2.1 "24:00" ['2', '4'] ['0', '0'] (by decide) (by decide)⟩

/-- **C7 (counterexample).** On a row with equal start and finish times
the computed duration is 0 minutes, but `durationMinutes` is the parsed
recorded value 30, not the computed 0: JS `calculatedDuration ||
parseDuration(...)` treats the computed 0 as falsy, contradicting the
claim's "including the case where the computed duration is 0 minutes". -/
theorem c7_duration_zero_counterexample :
    (validateEntry todayD entryZ).calculatedDuration = some 0 ∧
      (validateEntry todayD entryZ).durationMinutes = some 30 ∧
      (validateEntry todayD entryZ).durationMinutes ≠ some 0 := by
  refine ⟨by decide, by decide, by decide⟩

/-- **C7 (amended).** `durationMinutes` equals the computed duration
whenever one exists **and is non-zero**; otherwise (no computed duration,
or a computed duration of exactly 0) it falls back to the parsed
recorded-duration value, which is null when that fails to parse. -/
theorem c7_duration_fallback_amended (today : CivilDate) (e : LogbookEntry) :
    (∀ c, (validateEntry today e).calculatedDuration = some c → c ≠ 0 →
        (validateEntry today e).durationMinutes = some c) ∧
      ((validateEntry today e).calculatedDuration = some 0 ∨
          (validateEntry today e).calculatedDuration = none →
        (validateEntry today e).durationMinutes = parseDuration e.totalTime) := by
  have hbase : (validateEntry today e).durationMinutes =
      match (validateEntry today e).calculatedDuration with
      | some c => if c = 0 then parseDuration e.totalTime else some c
      | none => parseDuration e.totalTime := rfl
  constructor
  · intro c hc hne
    rw [hbase, hc]
    simp [hne]
  · intro hc
    rcases hc with hc | hc
    · rw [hbase, hc]
      simp
    · rw [hbase, hc]

/-- Witness for the amended C7: `entryZ` has computed duration 0 and
falls back to the parsed recorded value. -/
theorem c7_duration_fallback_amended_witness :
    (validateEntry todayD entryZ).calculatedDuration = some 0 ∧
      (validateEntry todayD entryZ).durationMinutes = parseDuration entryZ.totalTime :=
  ⟨by decide, (c7_duration_fallback_amended todayD entryZ).2 (Or.inl (by decide))⟩

/-- Modelled from the spec (§4.3 and §8): the page total the spec
describes — the sum of `durationMinutes` over rows with `isValid = true`
only.  Stated for comparison against the code's page total. -/
def specPageTotalMinutes (entries : List ValidatedEntry) : Int :=
  ((entries.filter (fun v => v.isValid)).map (fun v => v.durationMinutes.getD 0)).sum

/-- **C2 (counterexample).** A page whose single row is invalid (unclear
date) but has parseable times: the code's page total is 60 minutes while
the spec's valid-rows-only sum is 0 — invalid rows do contribute to the
page total. -/
theorem c2_page_total_counterexample :
    (validateEntries todayD pageX).totals.totalMinutes = 60 ∧
      specPageTotalMinutes ((validateEntries todayD pageX).entries) = 0 ∧
      (validateEntries todayD pageX).totals.totalMinutes ≠
        specPageTotalMinutes ((validateEntries todayD pageX).entries) := by
  refine ⟨by decide, by decide, by decide⟩

theorem processEntries_totalMinutes (today : CivilDate) (l : List LogbookEntry) :
    (processEntries today l).totalMinutes =
      (l.map (fun e => ((validateEntry today e).calculatedDuration).getD 0)).sum := by
  induction l with
  | nil => rfl
  | cons e rest ih => simp [processEntries, ih]

/-- **C2 (amended).** The page-level total minutes equal the sum of the
computed start/finish durations over **all** rows (0 for a row without a
computed duration): rows with errors still contribute their computed
duration, and a valid row whose `durationMinutes` comes only from the
recorded total contributes 0. -/
theorem c2_page_total_amended (today : CivilDate) (x : ExtractionResult) :
    (validateEntries today x).totals.totalMinutes =
      (x.entries.map (fun e => ((validateEntry today e).calculatedDuration).getD 0)).sum := by
  show (processEntries today x.entries).totalMinutes = _
  exact processEntries_totalMinutes today x.entries

/-- **C5.** The cross-page aggregator's professional credit: with
`actual = professional_actual_minutes / 60`, the first-tier credit is
`min(actual, 10) × 3`, the excess credit is `max(0, actual − 10) × 1`,
and the total professional credit is their sum; concretely, 12 actual
professional hours yield credits 30, 2 and 32. -/
theorem c5_professional_credit :
    (∀ scans : List ScanResult,
        (calculateCumulativeHours scans).adi.actualHours =
            (professionalActualMinutes scans : ℚ) / 60 ∧
          (calculateCumulativeHours scans).adi.first10Credit =
            min ((calculateCumulativeHours scans).adi.actualHours) 10 * 3 ∧
          (calculateCumulativeHours scans).adi.extraCredit =
            max 0 ((calculateCumulativeHours scans).adi.actualHours - 10) * 1 ∧
          (calculateCumulativeHours scans).adi.creditHours =
            (calculateCumulativeHours scans).adi.first10Credit +
              (calculateCumulativeHours scans).adi.extraCredit) ∧
      (calculateCumulativeHours [scan12]).adi.actualHours = 12 ∧
      (calculateCumulativeHours [scan12]).adi.first10Credit = 30 ∧
      (calculateCumulativeHours [scan12]).adi.extraCredit = 2 ∧
      (calculateCumulativeHours [scan12]).adi.creditHours = 32 := by
  have h720 : (cumFold [scan12]).greenAdiMinutes = 720 := by decide
  refine ⟨fun scans => ⟨rfl, rfl, by rw [mul_one]; rfl, rfl⟩, ?_, ?_, ?_, ?_⟩ <;>
    simp [calculateCumulativeHours, h720, min_def, max_def] <;> norm_num

/-- **C9 (counterexample).** Both odometer readings are present on
`entryOdo0` and the finish reading 0 is strictly below the start reading
5, yet the row receives no error at all: the JS presence test
`entry.odometerStart && entry.odometerFinish` treats the reading `0` as
absent, so the odometer rule is skipped entirely. -/
theorem c9_odometer_zero_counterexample :
    entryOdo0.odometerStart = some 5 ∧ entryOdo0.odometerFinish = some 0 ∧
      (0 : ℚ) - 5 < 0 ∧ (validateEntry todayD entryOdo0).errors = [] := by
  exact ⟨rfl, rfl, by norm_num, by decide⟩

theorem not_mem_ite_nil {c : Prop} [Decidable c] {a b : Issue} (hne : b ≠ a) :
    b ∉ (if c then [a] else ([] : List Issue)) := by
  split
  · simp [hne]
  · simp

theorem odo_not_mem_dateCheck_errors (today : CivilDate) (d : Option String) :
    Issue.mk "odometer" ∉ (dateCheck today d).2.1 := by
  rcases d with _ | s
  · simp [dateCheck]
  · simp only [dateCheck]
    split
    · split
      · simp
      · split
        · simp
        · split
          · simp
          · simp
    · simp

theorem odo_not_mem_dateCheck_warns (today : CivilDate) (d : Option String) :
    Issue.mk "odometer" ∉ (dateCheck today d).2.2 := by
  rcases d with _ | s
  · simp [dateCheck]
  · simp only [dateCheck]
    split
    · split
      · simp
      · split
        · simp
        · split
          · simp
          · simp
    · simp

theorem odo_not_mem_timeCheck_errors (fn : String) (hfn : fn ≠ "odometer")
    (t : Option String) : Issue.mk "odometer" ∉ (timeCheck fn t).2 := by
  rcases t with _ | s
  · simp [timeCheck]
  · simp only [timeCheck]
    split
    · split
      · simpa [Issue.mk.injEq] using Ne.symm hfn
      · simp
    · simp

theorem odo_not_mem_durationCheck_errors (tt : Option String) (st fi : Option Int) :
    Issue.mk "odometer" ∉ (durationCheck tt st fi).2.1 := by
  rcases st with _ | s0
  · simp [durationCheck]
  · rcases fi with _ | f0
    · simp [durationCheck]
    · simp only [durationCheck]
      intro hmem
      rw [List.mem_append] at hmem
      rcases hmem with h | h
      · revert h
        split
        · simp
        · simp
      · revert h
        rcases tt with _ | ts
        · simp
        · simp only []
          split
          · split
            · split
              · simp
              · simp
            · simp
          · simp

theorem odo_not_mem_durationCheck_warns (tt : Option String) (st fi : Option Int) :
    Issue.mk "odometer" ∉ (durationCheck tt st fi).2.2 := by
  rcases st with _ | s0
  · simp [durationCheck]
  · rcases fi with _ | f0
    · simp [durationCheck]
    · simp only [durationCheck]
      split
      · simp
      · simp

/-- Membership of the odometer tag in the row's error list reduces to the
odometer rule's own output: every other rule emits a different field. -/
theorem validateEntry_odo_error_iff (today : CivilDate) (e : LogbookEntry) :
    (Issue.mk "odometer" ∈ (validateEntry today e).errors ↔
      Issue.mk "odometer" ∈ (odoCheck e.odometerStart e.odometerFinish
        (validateEntry today e).calculatedDuration).1) := by
  simp [validateEntry, List.mem_append,
    not_mem_ite_nil (show Issue.mk "odometer" ≠ Issue.mk "date" by decide),
    not_mem_ite_nil (show Issue.mk "odometer" ≠ Issue.mk "time" by decide),
    odo_not_mem_dateCheck_errors today e.date,
    odo_not_mem_timeCheck_errors "startTime" (by decide) e.startTime,
    odo_not_mem_timeCheck_errors "finishTime" (by decide) e.finishTime,
    odo_not_mem_durationCheck_errors e.totalTime]

/-- Membership of the odometer tag in the row's warning list likewise
reduces to the odometer rule's own output. -/
theorem validateEntry_odo_warning_iff (today : CivilDate) (e : LogbookEntry) :
    (Issue.mk "odometer" ∈ (validateEntry today e).warnings ↔
      Issue.mk "odometer" ∈ (odoCheck e.odometerStart e.odometerFinish
        (validateEntry today e).calculatedDuration).2) := by
  simp [validateEntry, List.mem_append,
    not_mem_ite_nil (show Issue.mk "odometer" ≠ Issue.mk "totalTime" by decide),
    not_mem_ite_nil (show Issue.mk "odometer" ≠ Issue.mk "signature" by decide),
    not_mem_ite_nil (show Issue.mk "odometer" ≠ Issue.mk "general" by decide),
    odo_not_mem_dateCheck_warns today e.date,
    odo_not_mem_durationCheck_warns e.totalTime]

/-- With both readings truthy, the odometer rule emits its error exactly
when the distance is negative. -/
theorem odoCheck_mem_error_iff (s f : ℚ) (cd : Option Int) (hs : s ≠ 0) (hf : f ≠ 0) :
    (Issue.mk "odometer" ∈ (odoCheck (some s) (some f) cd).1 ↔ f - s < 0) := by
  simp only [odoCheck]
  rw [if_pos ⟨hs, hf⟩]
  by_cases hlt : f - s < 0
  · rw [if_pos hlt]
    simp [hlt]
  · rw [if_neg hlt]
    simp only [hlt, iff_false]
    split
    · split
      · split
        · simp
        · simp
      · simp
    · simp

/-- With both readings truthy, a distance above 200, a truthy computed
duration and an implied average speed above 100, the odometer rule emits
its warning. -/
theorem odoCheck_mem_warning (s f : ℚ) (cd : Option Int) (hs : s ≠ 0) (hf : f ≠ 0)
    (c : Int) (hcd : cd = some c) (hc : c ≠ 0) (hdist : 200 < f - s)
    (hspeed : 100 < (f - s) / ((c : ℚ) / 60)) :
    Issue.mk "odometer" ∈ (odoCheck (some s) (some f) cd).2 := by
  subst hcd
  simp only [odoCheck]
  rw [if_pos ⟨hs, hf⟩, if_neg (by linarith), if_pos hdist, if_pos ⟨hc, hspeed⟩]
  simp

/-- **C9 (amended).** For rows whose odometer readings are both present
**and non-zero** (the JS truthiness test conflates a 0 reading with an
absent one), an odometer error is appended iff the finish reading is
strictly below the start reading; and when the distance exceeds 200 with
a non-null, non-zero computed duration and an implied average speed
above 100 km/h, an odometer warning — and no odometer error — is
appended. -/
theorem c9_odometer_amended (today : CivilDate) (e : LogbookEntry) (s f : ℚ)
    (hS : e.odometerStart = some s) (hF : e.odometerFinish = some f)
    (hs : s ≠ 0) (hf : f ≠ 0) :
    ((Issue.mk "odometer" ∈ (validateEntry today e).errors) ↔ f - s < 0) ∧
      (∀ c, (validateEntry today e).calculatedDuration = some c → c ≠ 0 →
        200 < f - s → 100 < (f - s) / ((c : ℚ) / 60) →
        Issue.mk "odometer" ∈ (validateEntry today e).warnings ∧
          Issue.mk "odometer" ∉ (validateEntry today e).errors) := by
  constructor
  · rw [validateEntry_odo_error_iff, hS, hF]
    exact odoCheck_mem_error_iff s f _ hs hf
  · intro c hc hcne hdist hspeed
    constructor
    · rw [validateEntry_odo_warning_iff, hS, hF]
      exact odoCheck_mem_warning s f _ hs hf c hc hcne hdist hspeed
    · rw [validateEntry_odo_error_iff, hS, hF, odoCheck_mem_error_iff s f _ hs hf]
      linarith

/-- Witness for the amended C9: `entryOdoNeg` runs backwards from 1000
to 400 (both readings non-zero) and receives an odometer error. -/
theorem c9_odometer_amended_witness :
    (entryOdoNeg.odometerStart = some 1000 ∧ entryOdoNeg.odometerFinish = some 400 ∧
        (1000 : ℚ) ≠ 0 ∧ (400 : ℚ) ≠ 0 ∧ (400 : ℚ) - 1000 < 0) ∧
      Issue.mk "odometer" ∈ (validateEntry todayD entryOdoNeg).errors :=
  ⟨⟨rfl, rfl, by norm_num, by norm_num, by norm_num⟩,
    (c9_odometer_amended todayD entryOdoNeg 1000 400 rfl rfl (by norm_num)
        (by norm_num)).1.mpr (by norm_num)⟩

end ApexDT
